import Mathlib

set_option maxRecDepth 100000

/-!
Shallow embedding of the memory-weighting / decay subsystem
(`src/core/memory_manager.py`) and the auto-publish scheduler
(`src/core/scheduler.py`) of astrbot-plugin-realistic-persona.

Modelling conventions:
* Python floats are modelled as exact rationals (`ℚ`); every score the
  code manipulates is a small decimal constant, written here as a
  fraction (`0.5 = 1/2`, `0.4 = 2/5`, ...).
* Instants of time are modelled at one-second granularity as `ℤ`
  (seconds since an arbitrary epoch); `timedelta.days` floors, hence
  `Int.fdiv` below.
* Python `str` indexing/slicing is by code point, which matches Lean's
  `List Char` view of a `String`.
* File I/O is modelled by passing the parsed file contents (a list of
  records, or the reinforcement document) in and out explicitly.
-/

/-- Does `needle` occur at the start of `haystack`?  Helper for the
Python substring test. -/
def startsWithList : List Char → List Char → Bool
  | [], _ => true
  | _ :: _, [] => false
  | a :: as, b :: bs => a == b && startsWithList as bs

/-- Does `needle` occur contiguously anywhere in the second list? -/
def containsSub (needle : List Char) : List Char → Bool
  | [] => needle.isEmpty
  | c :: t => startsWithList needle (c :: t) || containsSub needle t

/-- Python `needle in haystack` on strings (code-point wise, as CPython). -/
def strContains (haystack needle : String) : Bool :=
  containsSub needle.toList haystack.toList

/-- Python `str.lower`.  Lean's `Char.toLower` only lowers ASCII
`A`–`Z`; the texts this code lowers are Chinese keywords and user chat,
where the difference is immaterial to the claims (the compared keywords
contain no cased letters at all). -/
def lowerStr (s : String) : String :=
  (s.toList.map Char.toLower).asString

/-- Python slice `s[:n]` (first `n` code points). -/
def pySlice (s : String) (n : ℕ) : String :=
  (s.toList.take n).asString

/-- Python builtin `min` on two numbers (first argument wins ties).
Written out with `if` so that proofs by `decide` can evaluate it. -/
def pymin (a b : ℚ) : ℚ := if b < a then b else a

/-- Python builtin `max` on two numbers (first argument wins ties). -/
def pymax (a b : ℚ) : ℚ := if a < b then b else a

/-- The keyword list of `MemoryManager.calculate_memory_importance`
(src/core/memory_manager.py lines 73-78). -/
def important_keywords : List String :=
  ["记得", "记住", "重要", "承诺", "决定",
   "成功", "完成", "突破", "改变", "学到",
   "感谢", "爱", "开心", "感动", "珍惜",
   "生日", "纪念", "节日", "里程碑", "转折"]

/-- The emotional-indicator list of `calculate_memory_importance`
(src/core/memory_manager.py lines 92-95). -/
def emotional_indicators : List String :=
  ["!", "！", "?", "？", "...", "…",
   "很", "非常", "特别", "真的", "一定"]

/-- `MemoryManager.calculate_memory_importance`
(src/core/memory_manager.py lines 46-105).  The keyword loop `break`s
after the first hit, hence `List.any`; the context-clue loop adds `0.1`
per matching clue with no break, hence a fold; the emotional counter
counts how many distinct indicator strings occur in the text. -/
def calculate_memory_importance (user_message bot_response : String)
    (context_clues : List String) : ℚ :=
  let full_text := user_message ++ " " ++ bot_response
  let importance : ℚ := 1/2
  let message_len := user_message.length
  let importance :=
    if 300 < message_len then importance + 1/5
    else if 100 < message_len then importance + 1/10
    else importance
  let importance :=
    if important_keywords.any (fun kw => strContains full_text kw) then
      importance + 3/20
    else importance
  let importance := context_clues.foldl
    (fun acc clue =>
      if strContains (lowerStr full_text) (lowerStr clue) then acc + 1/10 else acc)
    importance
  let emotional_count :=
    (emotional_indicators.filter (fun ind => strContains full_text ind)).length
  let importance := importance + pymin ((emotional_count : ℚ) * (1/20)) (3/20)
  let importance :=
    if 200 < bot_response.length then importance + 1/10 else importance
  pymin (pymax importance 0) 1

/-- The concrete turn of claim C2: 345 `'a'`s, the keyword "承诺"
(promise), and three `'!'` characters — 350 characters in all. -/
def c2Msg : String := (List.replicate 345 'a').asString ++ "承诺!!!"

/-- One line of `weighted_conversations.jsonl`, as written by
`MemoryManager.record_weighted_conversation` (src/core/memory_manager.py
lines 127-147).  `timestamp` is the record's instant in seconds;
`importance_score` and `decay_factor` are `Option` because a JSON record
read back from disk may lack them (the readers use `dict.get` defaults).
`is_trivial` is absent-or-true in JSON and read back with default
`False`, so a plain `Bool` is equivalent. -/
structure ConvRecord where
  timestamp : ℤ
  date : String
  user_id : String
  session_id : Option String
  user_message : String
  bot_response : String
  message_length : ℕ
  response_length : ℕ
  importance_score : Option ℚ
  review_count : ℕ
  last_reviewed : Option ℤ
  decay_factor : Option ℚ
  is_trivial : Bool
deriving DecidableEq

/-- Python `(now - datetime.fromisoformat(conv["timestamp"])).days`:
`timedelta.days` floors, hence `Int.fdiv`. -/
def ConvRecord.age_days (c : ConvRecord) (now : ℤ) : ℤ :=
  Int.fdiv (now - c.timestamp) 86400

/-- One line of `memory_decay.jsonl` (src/core/memory_manager.py
lines 296-302). -/
structure DecayRecord where
  timestamp : ℤ
  user_id : String
  archived_at : ℤ
  reason : String
  summary : String
deriving DecidableEq

/-- The statistics dictionary returned by `apply_memory_decay`. -/
structure DecayStats where
  decayed : ℕ
  kept : ℕ
  archived : ℕ
deriving DecidableEq

/-- The guard `age_days > days_threshold and importance < 0.4` of
`apply_memory_decay` (src/core/memory_manager.py line 290), with the
`conv.get("importance_score", 0.5)` default of line 287. -/
def decayCond (now days_threshold : ℤ) (c : ConvRecord) : Prop :=
  days_threshold < c.age_days now ∧ c.importance_score.getD (1/2) < 2/5

instance (now days_threshold : ℤ) (c : ConvRecord) :
    Decidable (decayCond now days_threshold c) := by
  unfold decayCond
  infer_instance

/-- `decay_factor = max(0, 1 - (age_days - days_threshold) / 90)`
(src/core/memory_manager.py line 292). -/
def decayFactorOf (days_threshold age_days : ℤ) : ℚ :=
  pymax 0 (1 - ((age_days : ℚ) - (days_threshold : ℚ)) / 90)

/-- The archive entry built at src/core/memory_manager.py lines 296-302. -/
def mkDecayRecord (archived_at : ℤ) (c : ConvRecord) : DecayRecord :=
  ⟨c.timestamp, c.user_id, archived_at, "low_importance_timeout",
   pySlice c.user_message 100⟩

/-- `MemoryManager.apply_memory_decay` (src/core/memory_manager.py
lines 258-338) on the parsed store contents.  Returns the rewritten
store, the records appended to the decay log, and the statistics
dictionary.  The loop of lines 283-313 appends in input order, which
the head-first recursion reproduces. -/
def apply_memory_decay (now archived_at days_threshold : ℤ) :
    List ConvRecord → List ConvRecord × List DecayRecord × DecayStats
  | [] => ([], [], ⟨0, 0, 0⟩)
  | conv :: rest =>
    let out := apply_memory_decay now archived_at days_threshold rest
    if decayCond now days_threshold conv then
      if decayFactorOf days_threshold (conv.age_days now) < 1/10 then
        (out.1, mkDecayRecord archived_at conv :: out.2.1,
         ⟨out.2.2.decayed + 1, out.2.2.kept, out.2.2.archived + 1⟩)
      else
        ({conv with
            decay_factor := some (decayFactorOf days_threshold (conv.age_days now))} :: out.1,
         out.2.1,
         ⟨out.2.2.decayed + 1, out.2.2.kept + 1, out.2.2.archived⟩)
    else
      (conv :: out.1, out.2.1,
       ⟨out.2.2.decayed, out.2.2.kept + 1, out.2.2.archived⟩)

/-- The sort key of `get_important_memories`
(src/core/memory_manager.py lines 405-412):
`(importance_score * decay_factor, timestamp)` with `dict.get`
defaults `0` and `1.0`. -/
def memSortKey (c : ConvRecord) : ℚ :=
  c.importance_score.getD 0 * c.decay_factor.getD 1

/-- The descending order produced by `sorted(..., reverse=True)` on the
key tuples: larger `memSortKey` first, ties broken by later timestamp
first (ISO-8601 strings compare chronologically, modelled on the
numeric timestamp). -/
def memGE (a b : ConvRecord) : Prop :=
  memSortKey b < memSortKey a ∨ (memSortKey b = memSortKey a ∧ b.timestamp ≤ a.timestamp)

instance : DecidableRel memGE := fun a b => by
  unfold memGE
  infer_instance

/-- `MemoryManager.get_important_memories` (src/core/memory_manager.py
lines 375-418) on the parsed store contents: filter by
`importance_score` (missing treated as `0`), optional `user_id`, and
`not is_trivial`; sort descending; return the first `limit`. -/
def get_important_memories (convs : List ConvRecord) (user_id : Option String)
    (threshold : ℚ) (limit : ℕ) : List ConvRecord :=
  let filtered := convs.filter fun c =>
    decide (threshold ≤ c.importance_score.getD 0)
    && (user_id.isNone || decide (some c.user_id = user_id))
    && !c.is_trivial
  (List.insertionSort memGE filtered).take limit

/-- An entry of the `core_memories` list of `memory_reinforcement.json`
(src/core/memory_manager.py lines 219-228). -/
structure CoreMemory where
  timestamp : ℤ
  user_id : String
  summary : String
  importance : ℚ
  category : String
  promoted_at : ℤ
deriving DecidableEq

/-- The `memory_reinforcement.json` document.  Only the
`core_memories` list is modelled: `important_memories`,
`reinforcement_log` and `last_review` are never touched by the
operations under verification (promotion appends to `core_memories`
and leaves everything else as read). -/
structure ReinforcementData where
  core_memories : List CoreMemory
deriving DecidableEq

/-- `MemoryManager._categorize_memory` (src/core/memory_manager.py
lines 240-254). -/
def categorize_memory (user_message bot_response : String) : String :=
  let full_text := lowerStr (user_message ++ " " ++ bot_response)
  if ["生日", "纪念", "节日", "周年"].any (fun kw => strContains full_text kw) then
    "important_date"
  else if ["成功", "完成", "突破", "成就"].any (fun kw => strContains full_text kw) then
    "achievement"
  else if ["承诺", "决定", "目标", "计划"].any (fun kw => strContains full_text kw) then
    "commitment"
  else if ["爱", "感谢", "珍惜", "感动"].any (fun kw => strContains full_text kw) then
    "emotional"
  else
    "general"

/-- The summary expression of `_promote_to_core_memory`
(src/core/memory_manager.py lines 222-224).  Python's conditional
expression groups as
`(user_message[:50] + "...") if len(user_message) > 50 else user_message`,
so the long branch is 50 characters plus a three-character ellipsis. -/
def promoteSummary (user_message : String) : String :=
  if 50 < user_message.length then pySlice user_message 50 ++ "..." else user_message

/-- `MemoryManager._promote_to_core_memory` (src/core/memory_manager.py
lines 213-238) on the parsed reinforcement document.  `promoted_at` is
the `datetime.now()` of line 227. -/
def promote_to_core_memory (promoted_at : ℤ) (conv : ConvRecord)
    (data : ReinforcementData) : ReinforcementData :=
  { data with
      core_memories := data.core_memories ++
        [⟨conv.timestamp, conv.user_id, promoteSummary conv.user_message,
          conv.importance_score.getD 0,
          categorize_memory conv.user_message conv.bot_response, promoted_at⟩] }

/-- The importance score actually stored by
`record_weighted_conversation` (src/core/memory_manager.py
lines 138-142): computed when the caller passes `None`, otherwise the
caller's value clamped to `[0, 1]`. -/
def effective_importance (importance_score : Option ℚ)
    (user_message bot_response : String) (context_clues : List String) : ℚ :=
  match importance_score with
  | none => calculate_memory_importance user_message bot_response context_clues
  | some s => pymin (pymax s 0) 1

/-- `MemoryManager.record_weighted_conversation`
(src/core/memory_manager.py lines 107-160): build the record
(lines 127-147), append it to the store file (lines 150-151), and when
the score is `≥ 0.8` promote it to core memory (lines 156-157).
`nowTs`/`nowDate` stand for the `datetime.now()` of lines 128-129. -/
def record_weighted_conversation (nowTs : ℤ) (nowDate : String)
    (user_id user_message bot_response : String) (importance_score : Option ℚ)
    (context_clues : List String) (session_id : Option String)
    (store : List ConvRecord) (data : ReinforcementData) :
    List ConvRecord × ReinforcementData :=
  let score := effective_importance importance_score user_message bot_response context_clues
  let conv : ConvRecord :=
    { timestamp := nowTs, date := nowDate, user_id := user_id,
      session_id := session_id, user_message := user_message,
      bot_response := bot_response, message_length := user_message.length,
      response_length := bot_response.length, importance_score := some score,
      review_count := 0, last_reviewed := none, decay_factor := some 1,
      is_trivial := false }
  if 4/5 ≤ score then (store ++ [conv], promote_to_core_memory nowTs conv data)
  else (store ++ [conv], data)

/-- A one-shot publish job added by `AutoPublish._schedule_today_posts`
(src/core/scheduler.py lines 237-242): the loop index and the target
clock time of its `DateTrigger`. -/
structure PublishJob where
  index : ℕ
  runHour : ℕ
  runMinute : ℕ
deriving DecidableEq

/-- The `AutoPublish` configuration read at src/core/scheduler.py
lines 135-137. -/
structure PublishConfig where
  publish_times_per_day : ℕ
  publish_time_ranges : List String
  insomnia_probability : ℚ

/-- The mutable state of an `AutoPublish` instance: the per-day counter
and date marker (src/core/scheduler.py lines 140-141), the one-shot
jobs currently on its scheduler, and the log of `publish_feed` calls
performed (`true` marks an insomnia post, lines 294-303). -/
structure PublishState where
  today_publish_count : ℕ
  last_publish_date : String
  jobs : List PublishJob
  published : List Bool
deriving DecidableEq

/-- Python `int(s)` on the digit substrings of a well-formed time
range.  (On malformed input CPython raises `ValueError`; the model
returns `0`, a case no claim exercises.) -/
def pyInt (s : String) : ℕ := s.toNat?.getD 0

/-- Python `random.randint(a, b)` (both ends inclusive), driven by an
abstract draw oracle `rng` indexed by the number of draws made so far. -/
def randint (rng : ℕ → ℕ) (k a b : ℕ) : ℕ := a + rng k % (b - a + 1)

/-- `"HH:MM"` parsing (src/core/scheduler.py line 193-194). -/
def parseClockTime (s : String) : ℕ × ℕ :=
  match s.splitOn ":" with
  | [h, m] => (pyInt h, pyInt m)
  | _ => (0, 0)

/-- The per-iteration random-time computation of
`_schedule_today_posts` (src/core/scheduler.py lines 189-226): either a
`"HH:MM-HH:MM"` window (with the cross-midnight branch of
lines 201-214) or an `"H-H"` hour range (lines 221-226).  Returns the
chosen `(hour, minute)` and the advanced draw counter. -/
def pickRandomTime (time_range : String) (rng : ℕ → ℕ) (k : ℕ) :
    (ℕ × ℕ) × ℕ :=
  if strContains time_range ":" then
    match time_range.splitOn "-" with
    | [start_time_str, end_time_str] =>
      let sc := parseClockTime start_time_str
      let ec := parseClockTime end_time_str
      let start_total_minutes := sc.1 * 60 + sc.2
      let end_total_minutes := ec.1 * 60 + ec.2
      if end_total_minutes ≤ start_total_minutes then
        let total_minutes_diff := (24 * 60 - start_total_minutes) + end_total_minutes
        let random_offset := randint rng k 0 total_minutes_diff
        if random_offset ≤ 24 * 60 - start_total_minutes then
          let final_total_minutes := start_total_minutes + random_offset
          ((final_total_minutes / 60, final_total_minutes % 60), k + 1)
        else
          let final_total_minutes :=
            (random_offset - (24 * 60 - start_total_minutes)) % (24 * 60)
          ((final_total_minutes / 60, final_total_minutes % 60), k + 1)
      else
        let t := randint rng k start_total_minutes end_total_minutes
        ((t / 60, t % 60), k + 1)
    | _ => ((0, 0), k)
  else
    match time_range.splitOn "-" with
    | [start_str, end_str] =>
      let h := randint rng k (pyInt start_str) (pyInt end_str - 1)
      let m := randint rng (k + 1) 0 59
      ((h, m), k + 2)
    | _ => ((0, 0), k)

/-- The `for i in range(self.publish_times_per_day)` loop of
`_schedule_today_posts` (src/core/scheduler.py lines 185-245):
cycle through the configured ranges, pick a random time, and skip the
slot when the target is not after `now` (minute granularity; the
target's seconds are zeroed, so comparison at minutes is exact). -/
def scheduleLoop (cfg : PublishConfig) (nowMinutes : ℕ) (rng : ℕ → ℕ) :
    List ℕ → PublishState × ℕ → PublishState × ℕ
  | [], sk => sk
  | i :: rest, (st, k) =>
    let time_range :=
      cfg.publish_time_ranges.getD (i % cfg.publish_time_ranges.length) ""
    let pick := pickRandomTime time_range rng k
    let target := pick.1.1 * 60 + pick.1.2
    if target ≤ nowMinutes then
      scheduleLoop cfg nowMinutes rng rest (st, pick.2)
    else
      scheduleLoop cfg nowMinutes rng rest
        ({st with jobs := st.jobs ++ [⟨i, pick.1.1, pick.1.2⟩]}, pick.2)

/-- `AutoPublish._schedule_today_posts` (src/core/scheduler.py
lines 171-245): return unchanged when `last_publish_date` already
equals today (lines 177-179), otherwise mark the date and run the
scheduling loop. -/
def schedule_today_posts (cfg : PublishConfig) (today_str : String)
    (nowMinutes : ℕ) (rng : ℕ → ℕ) (st : PublishState) : PublishState :=
  if st.last_publish_date = today_str then st
  else
    (scheduleLoop cfg nowMinutes rng (List.range cfg.publish_times_per_day)
      ({st with last_publish_date := today_str}, 0)).1

/-- `AutoPublish._reset_and_schedule_today` (src/core/scheduler.py
lines 163-169): zero the counter, set `last_publish_date` to today,
then call `_schedule_today_posts`. -/
def reset_and_schedule_today (cfg : PublishConfig) (today_str : String)
    (nowMinutes : ℕ) (rng : ℕ → ℕ) (st : PublishState) : PublishState :=
  schedule_today_posts cfg today_str nowMinutes rng
    {st with today_publish_count := 0, last_publish_date := today_str}

/-- `AutoPublish._publish_post` (src/core/scheduler.py lines 275-309):
roll the counter over on a date change (lines 280-282); for a regular
post, stop at the daily cap or increment the counter (lines 284-289);
then perform one `publish_feed` call (lines 294-303), recorded on the
`published` log with its insomnia flag. -/
def publish_post (cfg : PublishConfig) (today_str : String) (insomnia : Bool)
    (st : PublishState) : PublishState :=
  let st1 :=
    if st.last_publish_date ≠ today_str then
      {st with today_publish_count := 0, last_publish_date := today_str}
    else st
  if insomnia then
    {st1 with published := st1.published ++ [true]}
  else if cfg.publish_times_per_day ≤ st1.today_publish_count then st1
  else
    {st1 with today_publish_count := st1.today_publish_count + 1,
              published := st1.published ++ [false]}

/-- `AutoPublish._check_insomnia` (src/core/scheduler.py lines 257-273):
outside the 23:00–02:00 window do nothing; otherwise publish an
insomnia post unless the probability draw misses
(`random.random() > insomnia_probability`). -/
def check_insomnia (cfg : PublishConfig) (hour : ℕ) (today_str : String)
    (draw : ℚ) (st : PublishState) : PublishState :=
  if ¬(23 ≤ hour ∨ hour < 2) then st
  else if cfg.insomnia_probability < draw then st
  else publish_post cfg today_str true st

/-! ## Theorems -/

lemma pymin_le_one (x : ℚ) : pymin x 1 ≤ 1 := by
  unfold pymin
  split <;> linarith

lemma pymin_one_nonneg {x : ℚ} (h : 0 ≤ x) : 0 ≤ pymin x 1 := by
  unfold pymin
  split <;> linarith

lemma pymax_zero_nonneg (x : ℚ) : 0 ≤ pymax x 0 := by
  unfold pymax
  split <;> linarith

/-- C4: for every conversation input — arbitrary user message, bot
response and context clues, including empty strings and extreme
lengths — `calculate_memory_importance` returns a value within `[0,1]`;
for empty user message, empty bot response and no context clues it
returns exactly `0.5`. -/
theorem calculate_memory_importance_bounds :
    (∀ user_message bot_response context_clues,
      0 ≤ calculate_memory_importance user_message bot_response context_clues ∧
      calculate_memory_importance user_message bot_response context_clues ≤ 1) ∧
    calculate_memory_importance "" "" [] = 1/2 := by
  constructor
  · intro um br cc
    unfold calculate_memory_importance
    exact ⟨pymin_one_nonneg (pymax_zero_nonneg _), pymin_le_one _⟩
  · have h2 : (important_keywords.any fun kw =>
        strContains (("" : String) ++ " " ++ "") kw) = false := by decide
    have h3 : (emotional_indicators.filter fun ind =>
        strContains (("" : String) ++ " " ++ "") ind).length = 0 := by decide
    simp only [calculate_memory_importance, h2, h3, String.length, List.foldl,
      Bool.false_eq_true, if_false]
    norm_num [pymin, pymax]

lemma c2Msg_score : calculate_memory_importance c2Msg "" [] = 9/10 := by
  have h1 : c2Msg.length = 350 := by decide
  have h2 : (important_keywords.any fun kw =>
      strContains (c2Msg ++ " " ++ "") kw) = true := by decide
  have h3 : (emotional_indicators.filter fun ind =>
      strContains (c2Msg ++ " " ++ "") ind).length = 1 := by decide
  simp only [calculate_memory_importance, h1, h2, h3, List.foldl, if_true]
  norm_num [pymin, pymax]

/-- C2 counterexample: on a concrete 350-character user message that
contains "承诺" (promise) and three "!" characters, with empty bot
response and no context clues, `calculate_memory_importance` does not
return `1.0`. -/
theorem c2_score_not_one : calculate_memory_importance c2Msg "" [] ≠ 1 := by
  rw [c2Msg_score]
  norm_num

/-- C2 amended: on that turn the score is exactly `0.9 = 0.5 base +
0.2 length bonus + 0.15 keyword bonus + 0.05 emotional bonus`: the
emotional counter tests which indicator *strings* occur in the text, so
three occurrences of "!" contribute a single `0.05`, not a capped
`0.15`. -/
theorem c2_score_value :
    c2Msg.length = 350 ∧ strContains c2Msg "承诺" = true ∧
    c2Msg.toList.count '!' = 3 ∧
    calculate_memory_importance c2Msg "" [] = 9/10 :=
  ⟨by decide, by decide, by decide, c2Msg_score⟩

/-- C3 (evidence of the code bug): `_reset_and_schedule_today` zeroes
the counter but schedules nothing, for every configuration, state,
date, time of day and randomness: it sets `last_publish_date` to today
*before* calling `_schedule_today_posts`, whose
`last_publish_date == today_str` guard then returns immediately, so the
day's windows are never re-planned. -/
theorem reset_and_schedule_today_is_reset_only (cfg : PublishConfig)
    (today_str : String) (nowMinutes : ℕ) (rng : ℕ → ℕ) (st : PublishState) :
    reset_and_schedule_today cfg today_str nowMinutes rng st =
      {st with today_publish_count := 0, last_publish_date := today_str} := by
  unfold reset_and_schedule_today schedule_today_posts
  simp

/-- C9: the insomnia check never publishes outside 23:00–02:00 — for
`2 ≤ hour < 23` the state is untouched; inside the window, when the
probability draw succeeds, it performs exactly one publish that is
neither blocked by `today_publish_count` (the state's counter is
arbitrary) nor increments it (the counter is only rolled to `0` on a
date change). -/
theorem check_insomnia_window_spec (cfg : PublishConfig) (hour : ℕ)
    (today_str : String) (draw : ℚ) (st : PublishState) :
    (2 ≤ hour ∧ hour < 23 → check_insomnia cfg hour today_str draw st = st) ∧
    ((23 ≤ hour ∨ hour < 2) → draw ≤ cfg.insomnia_probability →
      (check_insomnia cfg hour today_str draw st).published = st.published ++ [true] ∧
      (check_insomnia cfg hour today_str draw st).today_publish_count =
        (if st.last_publish_date = today_str then st.today_publish_count else 0)) := by
  constructor
  · rintro ⟨h2, h23⟩
    unfold check_insomnia
    rw [if_pos (by omega : ¬(23 ≤ hour ∨ hour < 2))]
  · intro hw hd
    unfold check_insomnia publish_post
    rw [if_neg (not_not_intro hw), if_neg (not_lt.mpr hd)]
    by_cases hdate : st.last_publish_date = today_str
    · simp [hdate]
    · simp [hdate]

def c9Cfg : PublishConfig := ⟨1, [], 1⟩

def c9St : PublishState := ⟨5, "2026-10-12", [], []⟩

/-- Witness for C9: at 23:00 on a day already marked in the state, with
probability 1 and a draw of 0, the check publishes exactly one insomnia
post and leaves the counter at its prior value 5 — above the daily cap
of 1, so it was not blocked and not counted. -/
theorem check_insomnia_window_spec_witness :
    (check_insomnia c9Cfg 23 "2026-10-12" 0 c9St).published = c9St.published ++ [true] ∧
    (check_insomnia c9Cfg 23 "2026-10-12" 0 c9St).today_publish_count = 5 := by
  have h := (check_insomnia_window_spec c9Cfg 23 "2026-10-12" 0 c9St).2
    (Or.inl (by norm_num)) (by norm_num [c9Cfg])
  exact ⟨h.1, h.2.trans (by simp [c9St])⟩

/-- C6: `apply_memory_decay` leaves every record that does not satisfy
`age_days > days_threshold and importance_score < 0.4` in the rewritten
store exactly as read — the record itself, all fields including
`decay_factor` untouched, is a member of the output store. -/
theorem apply_memory_decay_frame (now archived_at days_threshold : ℤ)
    (convs : List ConvRecord) (r : ConvRecord) (hr : r ∈ convs)
    (hcond : ¬decayCond now days_threshold r) :
    r ∈ (apply_memory_decay now archived_at days_threshold convs).1 := by
  induction convs with
  | nil => simp at hr
  | cons conv rest ih =>
    rcases List.mem_cons.mp hr with rfl | hr2
    · simp only [apply_memory_decay, if_neg hcond]
      exact List.mem_cons_self _ _
    · have hmem := ih hr2
      simp only [apply_memory_decay]
      split
      · split
        · exact hmem
        · exact List.mem_cons_of_mem _ hmem
      · exact List.mem_cons_of_mem _ hmem

/-- C1: after `apply_memory_decay(days_threshold=30)`, for every store
contents and every current time, no record retained in the live store
has `age_days > 30`, `importance_score < 0.4` (with the reader's `0.5`
default) and `decay_factor < 0.1`: such records are recomputed to
`max(0, 1-(age_days-30)/90)` and archived out when that falls below
`0.1`. -/
theorem apply_memory_decay_no_stale (now archived_at : ℤ)
    (convs : List ConvRecord) (r : ConvRecord)
    (hr : r ∈ (apply_memory_decay now archived_at 30 convs).1) :
    ¬(30 < r.age_days now ∧ r.importance_score.getD (1/2) < 2/5 ∧
      r.decay_factor.getD 1 < 1/10) := by
  induction convs with
  | nil => simp [apply_memory_decay] at hr
  | cons conv rest ih =>
    simp only [apply_memory_decay] at hr
    by_cases hc : decayCond now 30 conv
    · rw [if_pos hc] at hr
      by_cases hd : decayFactorOf 30 (conv.age_days now) < 1/10
      · rw [if_pos hd] at hr
        exact ih hr
      · rw [if_neg hd] at hr
        rcases List.mem_cons.mp hr with rfl | hr2
        · rintro ⟨-, -, h3⟩
          exact hd h3
        · exact ih hr2
    · rw [if_neg hc] at hr
      rcases List.mem_cons.mp hr with rfl | hr2
      · rintro ⟨h1, h2, -⟩
        exact hc ⟨h1, h2⟩
      · exact ih hr2

/-- C10: the statistics of `apply_memory_decay` are conserved:
`kept + archived` equals the number of records read, `kept` equals the
number written back, and `decayed` equals `archived` plus the number of
retained records whose `decay_factor` was recomputed. -/
theorem apply_memory_decay_stats (now archived_at days_threshold : ℤ)
    (convs : List ConvRecord) :
    (apply_memory_decay now archived_at days_threshold convs).2.2.kept +
      (apply_memory_decay now archived_at days_threshold convs).2.2.archived =
      convs.length ∧
    (apply_memory_decay now archived_at days_threshold convs).2.2.kept =
      (apply_memory_decay now archived_at days_threshold convs).1.length ∧
    (apply_memory_decay now archived_at days_threshold convs).2.2.decayed =
      (apply_memory_decay now archived_at days_threshold convs).2.2.archived +
        convs.countP (fun c => decide (decayCond now days_threshold c) &&
          !decide (decayFactorOf days_threshold (c.age_days now) < 1/10)) := by
  induction convs with
  | nil => simp [apply_memory_decay]
  | cons conv rest ih =>
    obtain ⟨ih1, ih2, ih3⟩ := ih
    by_cases hc : decayCond now days_threshold conv
    · by_cases hd : decayFactorOf days_threshold (conv.age_days now) < 1/10
      · have hp : (decide (decayCond now days_threshold conv) &&
            !decide (decayFactorOf days_threshold (conv.age_days now) < 1/10)) = false := by
          rw [decide_eq_true hd]
          simp only [Bool.not_true, Bool.and_false]
        simp only [apply_memory_decay, if_pos hc, if_pos hd, List.countP_cons,
          List.length_cons, hp, Bool.false_eq_true, if_false]
        refine ⟨by omega, by omega, by omega⟩
      · have hp : (decide (decayCond now days_threshold conv) &&
            !decide (decayFactorOf days_threshold (conv.age_days now) < 1/10)) = true := by
          rw [decide_eq_true hc, decide_eq_false hd]
          rfl
        simp only [apply_memory_decay, if_pos hc, if_neg hd, List.countP_cons,
          List.length_cons, hp, if_true]
        refine ⟨by omega, by omega, by omega⟩
    · have hp : (decide (decayCond now days_threshold conv) &&
          !decide (decayFactorOf days_threshold (conv.age_days now) < 1/10)) = false := by
        rw [decide_eq_false hc]
        rfl
      simp only [apply_memory_decay, if_neg hc, List.countP_cons,
        List.length_cons, hp, Bool.false_eq_true, if_false]
      refine ⟨by omega, by omega, by omega⟩

/-- C7: `get_important_memories(threshold=0.7)` — for every store
contents, user filter and limit — returns no record marked
`is_trivial` and none whose `importance_score` (missing treated as
`0`, hence excluded) is below `0.7`. -/
theorem get_important_memories_no_trivial_low (convs : List ConvRecord)
    (user_id : Option String) (limit : ℕ) (r : ConvRecord)
    (hr : r ∈ get_important_memories convs user_id (7/10) limit) :
    r.is_trivial = false ∧ 7/10 ≤ r.importance_score.getD 0 := by
  have h1 : r ∈ List.insertionSort memGE (convs.filter fun c =>
      decide ((7:ℚ)/10 ≤ c.importance_score.getD 0)
      && (user_id.isNone || decide (some c.user_id = user_id))
      && !c.is_trivial) := List.mem_of_mem_take hr
  have h2 := (List.perm_insertionSort memGE _).mem_iff.mp h1
  have h3 := List.of_mem_filter h2
  simp only [Bool.and_eq_true, decide_eq_true_eq, Bool.not_eq_true'] at h3
  exact ⟨h3.2, h3.1.1⟩

/-- C5: whenever the importance score stored by
`record_weighted_conversation` (computed, or caller-given and clamped)
is at least `0.8`, a `CoreMemory` entry with the same timestamp,
user_id and importance is in the `core_memories` list of the
reinforcement document after the call. -/
theorem record_weighted_promotes (nowTs : ℤ)
    (nowDate user_id user_message bot_response : String)
    (importance_score : Option ℚ) (context_clues : List String)
    (session_id : Option String) (store : List ConvRecord)
    (data : ReinforcementData)
    (h : 4/5 ≤ effective_importance importance_score user_message bot_response
      context_clues) :
    ∃ cm ∈ (record_weighted_conversation nowTs nowDate user_id user_message
        bot_response importance_score context_clues session_id store
        data).2.core_memories,
      cm.timestamp = nowTs ∧ cm.user_id = user_id ∧
      cm.importance = effective_importance importance_score user_message
        bot_response context_clues := by
  unfold record_weighted_conversation
  rw [if_pos h]
  exact ⟨_, List.mem_append_right _ (List.mem_singleton_self _), rfl, rfl, rfl⟩

/-- Witness for C5: a caller-given score of `1` clamps to `1 ≥ 0.8` and
the promoted entry is present with matching fields. -/
theorem record_weighted_promotes_witness :
    (4:ℚ)/5 ≤ effective_importance (some 1) "m" "r" [] ∧
    ∃ cm ∈ (record_weighted_conversation 0 "2026-01-01" "u" "m" "r" (some 1)
        [] none [] ⟨[]⟩).2.core_memories,
      cm.timestamp = 0 ∧ cm.user_id = "u" ∧
      cm.importance = effective_importance (some 1) "m" "r" [] :=
  ⟨by norm_num [effective_importance, pymin, pymax],
   record_weighted_promotes 0 "2026-01-01" "u" "m" "r" (some 1) [] none [] ⟨[]⟩
     (by norm_num [effective_importance, pymin, pymax])⟩

def c8Conv : ConvRecord :=
  ⟨0, "2026-01-01", "u", none, (List.replicate 51 'b').asString, "", 51, 0,
   some 1, 0, none, some 1, false⟩

/-- C8 counterexample: promoting a conversation whose user message has
51 characters creates a core-memory entry whose summary has 53
characters — `user_message[:50] + "..."` — so the summary is neither at
most 50 characters nor a plain truncation. -/
theorem promote_summary_exceeds_50 :
    ∃ cm ∈ (promote_to_core_memory 0 c8Conv ⟨[]⟩).core_memories,
      ¬(cm.summary.length ≤ 50) := by
  refine ⟨_, List.mem_append_right _ (List.mem_singleton_self _), ?_⟩
  decide

/-- C8 amended: every `CoreMemory` entry created by promotion has a
summary equal to the user message when that message is at most 50
characters; otherwise the summary is the first 50 characters of the
message followed by `"..."`, 53 characters in all. -/
theorem promote_to_core_memory_summary (promoted_at : ℤ) (conv : ConvRecord)
    (data : ReinforcementData) :
    ∃ cm, (promote_to_core_memory promoted_at conv data).core_memories =
        data.core_memories ++ [cm] ∧
      ((conv.user_message.length ≤ 50 ∧ cm.summary = conv.user_message) ∨
       (50 < conv.user_message.length ∧
        cm.summary = pySlice conv.user_message 50 ++ "..." ∧
        cm.summary.length = 53)) := by
  refine ⟨_, rfl, ?_⟩
  by_cases h : 50 < conv.user_message.length
  · right
    refine ⟨h, ?_, ?_⟩
    · show promoteSummary conv.user_message = _
      rw [promoteSummary, if_pos h]
    · show (promoteSummary conv.user_message).length = 53
      rw [promoteSummary, if_pos h, String.length_append]
      have hs : (pySlice conv.user_message 50).length =
          min 50 conv.user_message.length := by
        show (conv.user_message.toList.take 50).length = _
        rw [List.length_take]
        rfl
      rw [hs]
      have : ("..." : String).length = 3 := rfl
      rw [this]
      omega
  · left
    refine ⟨le_of_not_lt h, ?_⟩
    show promoteSummary conv.user_message = _
    rw [promoteSummary, if_neg h]

def cRec : ConvRecord :=
  ⟨0, "2026-01-01", "u", none, "hello", "hi", 5, 2, some 1, 0, none, some 1,
   false⟩

lemma cRec_age : cRec.age_days 0 = 0 := rfl

lemma cRec_not_decay : ¬decayCond 0 30 cRec := by
  rintro ⟨h1, -⟩
  rw [cRec_age] at h1
  exact absurd h1 (by decide)

lemma decay_singleton_keeps : (apply_memory_decay 0 0 30 [cRec]).1 = [cRec] := by
  simp only [apply_memory_decay, if_neg cRec_not_decay]

/-- Witness for C1: a fresh, important record survives the sweep and
indeed fails the stale-low-value predicate. -/
theorem apply_memory_decay_no_stale_witness :
    cRec ∈ (apply_memory_decay 0 0 30 [cRec]).1 ∧
    ¬(30 < cRec.age_days 0 ∧ cRec.importance_score.getD (1/2) < 2/5 ∧
      cRec.decay_factor.getD 1 < 1/10) := by
  have hm : cRec ∈ (apply_memory_decay 0 0 30 [cRec]).1 := by
    rw [decay_singleton_keeps]
    exact List.mem_singleton_self _
  exact ⟨hm, apply_memory_decay_no_stale 0 0 [cRec] cRec hm⟩

/-- Witness for C6: a record outside the decay condition passes through
the sweep into the rewritten store unchanged. -/
theorem apply_memory_decay_frame_witness :
    cRec ∈ [cRec] ∧ ¬decayCond 0 30 cRec ∧
    cRec ∈ (apply_memory_decay 0 0 30 [cRec]).1 :=
  ⟨List.mem_singleton_self _, cRec_not_decay,
   apply_memory_decay_frame 0 0 30 [cRec] cRec (List.mem_singleton_self _)
     cRec_not_decay⟩

lemma get_singleton : get_important_memories [cRec] none (7/10) 10 = [cRec] := by
  unfold get_important_memories
  have hfil : (decide ((7:ℚ)/10 ≤ cRec.importance_score.getD 0)
      && ((none : Option String).isNone || decide (some cRec.user_id = none))
      && !cRec.is_trivial) = true := by
    rw [decide_eq_true
      (by norm_num [cRec, Option.getD_some] :
        (7:ℚ)/10 ≤ cRec.importance_score.getD 0)]
    rfl
  simp only [List.filter_cons, List.filter_nil, hfil, if_true,
    List.insertionSort, List.orderedInsert]
  exact List.take_of_length_le (by simp)

/-- Witness for C7: a non-trivial record with score 1 is returned and
satisfies the filter guarantees. -/
theorem get_important_memories_no_trivial_low_witness :
    cRec ∈ get_important_memories [cRec] none (7/10) 10 ∧
    cRec.is_trivial = false ∧ (7:ℚ)/10 ≤ cRec.importance_score.getD 0 := by
  have hm : cRec ∈ get_important_memories [cRec] none (7/10) 10 := by
    rw [get_singleton]
    exact List.mem_singleton_self _
  exact ⟨hm, get_important_memories_no_trivial_low [cRec] none 10 cRec hm⟩
